import Mathlib

/- Verification of the resumable remote-file fetcher in mne/utils.py:
   the ProgressBar class, _chunk_read_, _fetch_file and sizeof_fmt.

   Modelling conventions:
   - byte strings are List Nat, paths are String;
   - the filesystem is an association list from path to file content,
     plus a list of existing directories;
   - network behaviour (which transport call fails, with which Python
     exception class, and which bytes arrive) is an explicit Env value;
   - Python exceptions are an ExcKind value carried in Except;
   - Python floats are idealized as exact rational / integer arithmetic
     (in particular int(math.log(num, 1024)) is the exact floor log);
   - writes to the progress sink are recorded as a trace of the values
     passed to ProgressBar.update, and the number of ProgressBar
     constructions is counted, rather than rendering the bar text. -/

namespace MneFetch

/-- Python exception classes that the fetcher's control flow can meet. -/
inductive ExcKind
  | httpError       -- urllib2.HTTPError
  | urlError        -- urllib2.URLError
  | ftpErrorPerm    -- ftplib.error_perm (5xx reply to an FTP command)
  | ftpErrorTemp    -- ftplib.error_temp (4xx reply to an FTP command)
  | socketError     -- socket.error
  | ioError         -- IOError / OSError
  | attributeError  -- AttributeError
  | typeError       -- TypeError
  | valueError      -- ValueError
deriving DecidableEq, Repr

/-- URL scheme, per the spec's external interface (http, https or ftp). -/
inductive Scheme
  | http
  | https
  | ftp
deriving DecidableEq, Repr

/-- Parsed URL, standing for urlparse.urlparse(url).  The path field is the
percent-encoded path component; the model assumes the url has no query or
fragment, so os.path.basename of the whole url string equals the basename
of the path component. -/
structure URL where
  scheme : Scheme
  hostname : String
  port : Option Nat
  path : String
deriving DecidableEq, Repr

/-- The arguments of _fetch_file(url, data_dir, resume, overwrite, md5sum,
verbose). -/
structure Request where
  url : URL
  dataDir : String
  resume : Bool
  overwrite : Bool
  md5sum : Option String
  verbose : Nat
deriving DecidableEq, Repr

/-- Filesystem contents: path to file bytes. -/
abbrev FileSys := List (String × List Nat)

/-- os.path.exists / reading a file: first binding wins. -/
def fsGet : FileSys → String → Option (List Nat)
  | [], _ => none
  | (k, v) :: rest, p => if k = p then some v else fsGet rest p

/-- Create or overwrite a file (open for write, ftp append result,
shutil.move target). -/
def fsSet : FileSys → String → List Nat → FileSys
  | [], p, v => [(p, v)]
  | (k, w) :: rest, p, v => if k = p then (p, v) :: rest else (k, w) :: fsSet rest p v

/-- os.remove / the source half of shutil.move. -/
def fsRemove : FileSys → String → FileSys
  | [], _ => []
  | (k, w) :: rest, p => if k = p then fsRemove rest p else (k, w) :: fsRemove rest p

/-- os.path.basename on a list of characters: the segment after the last
slash (resets the accumulator at every slash, like splitting on the
separator and keeping the last piece). -/
def basenameChars (cs : List Char) : List Char :=
  cs.foldl (fun acc c => if c = '/' then [] else acc ++ [c]) []

/-- os.path.basename. -/
def basename (s : String) : String := String.mk (basenameChars s.data)

/-- os.path.join for a directory without trailing slash and a relative
component, which is how _fetch_file uses it. -/
def pathJoin (a b : String) : String := a ++ "/" ++ b

/-- Whether pat is a prefix of cs (helper for str.replace). -/
def listStartsWith : List Char → List Char → Bool
  | [], _ => true
  | _ :: _, [] => false
  | p :: ps, c :: cs => p == c && listStartsWith ps cs

/-- Fuel-driven worker for Python str.replace: replaces every occurrence
of pat, scanning left to right.  Fuel equal to the length of the subject
suffices because every step consumes at least one character.  (Python's
behaviour on an empty pattern, inserting the replacement everywhere, is
not reproduced; the fetcher only calls this with a non-empty pattern.) -/
def replaceChars : Nat → List Char → List Char → List Char → List Char
  | 0, s, _, _ => s
  | _ + 1, [], _, _ => []
  | fuel + 1, c :: rest, pat, repl =>
    if !pat.isEmpty && listStartsWith pat (c :: rest) then
      repl ++ replaceChars fuel ((c :: rest).drop pat.length) pat repl
    else
      c :: replaceChars fuel rest pat repl

/-- Python str.replace(old, new) (all occurrences). -/
def stringReplace (s pat repl : String) : String :=
  String.mk (replaceChars s.data.length s.data pat.data repl.data)

/-- Value of a hexadecimal digit, if any. -/
def hexVal (c : Char) : Option Nat :=
  if '0' ≤ c ∧ c ≤ '9' then some (c.toNat - Char.toNat '0')
  else if 'a' ≤ c ∧ c ≤ 'f' then some (c.toNat - Char.toNat 'a' + 10)
  else if 'A' ≤ c ∧ c ≤ 'F' then some (c.toNat - Char.toNat 'A' + 10)
  else none

/-- urllib.unquote: percent-decoding, leaving malformed escapes alone. -/
def unquoteChars : List Char → List Char
  | [] => []
  | '%' :: a :: b :: rest =>
    match hexVal a, hexVal b with
    | some hi, some lo => Char.ofNat (16 * hi + lo) :: unquoteChars rest
    | _, _ => '%' :: unquoteChars (a :: b :: rest)
  | c :: rest => c :: unquoteChars rest

/-- urllib.unquote on strings. -/
def pyUnquote (s : String) : String := String.mk (unquoteChars s.data)

/-- Python str.strip(): drop whitespace from both ends. -/
def pyStrip (s : String) : String :=
  String.mk (((s.data.dropWhile Char.isWhitespace).reverse.dropWhile
    Char.isWhitespace).reverse)

/-- Decimal value of a digit list. -/
def digitsVal (cs : List Char) : Nat :=
  cs.foldl (fun a c => 10 * a + (c.toNat - Char.toNat '0')) 0

/-- Python int(str): optional sign followed by decimal digits, with
surrounding whitespace tolerated; anything else raises (here: none). -/
def pyInt (s : String) : Option Int :=
  match (pyStrip s).data with
  | [] => none
  | '-' :: ds =>
    if !ds.isEmpty && ds.all Char.isDigit then some (-(digitsVal ds : Int)) else none
  | '+' :: ds =>
    if !ds.isEmpty && ds.all Char.isDigit then some ((digitsVal ds : Int)) else none
  | ds =>
    if ds.all Char.isDigit then some ((digitsVal ds : Int)) else none

/-- Fuel-driven decimal rendering of a natural number (most significant
digit first); fuel n + 1 suffices for n. -/
def natToStrAux : Nat → Nat → List Char
  | 0, _ => []
  | fuel + 1, n =>
    if n < 10 then [Nat.digitChar n]
    else natToStrAux fuel (n / 10) ++ [Nat.digitChar (n % 10)]

/-- Decimal rendering of a natural number. -/
def natToStr (n : Nat) : String := String.mk (natToStrAux (n + 1) n)

/-- Decimal rendering padded with leading zeros to at least d digits. -/
def natToStrPad (d n : Nat) : String :=
  String.mk (List.replicate (d - (natToStrAux (n + 1) n).length) '0' ++
    natToStrAux (n + 1) n)

/-- Network-level actions issued by the fetcher, in order. -/
inductive NetEv
  | ftpConnect (hostname : String) (port : Option Nat)  -- data.connect(...)
  | ftpLogin                                            -- data.login()
  | ftpCwd (dir : String)                               -- data.cwd(...)
  | ftpCmd (cmd : String)                               -- data.sendcmd(...)
  | ftpRetr (cmd : String)                              -- data.retrbinary(...)
  | httpOpen (scheme : Scheme) (hostname : String) (path : String)  -- urllib2.urlopen
deriving DecidableEq, Repr

/-- Behaviour of the FTP server for one fetch: for each protocol step,
either success (none) or the Python exception it raises; plus the bytes a
successful RETR streams to the callback. -/
structure FtpEnv where
  connectExc : Option ExcKind
  loginExc : Option ExcKind
  cwdExc : Option ExcKind
  typeExc : Option ExcKind
  restExc : Option ExcKind
  retrExc : Option ExcKind
  retrData : List Nat
deriving DecidableEq, Repr

/-- The response object urllib2.urlopen returns: the Content-Length header
(absent when none) and the successive results of response.read(chunk_size),
each at most chunk_size long; end of stream is an empty read (reaching the
end of the list also counts as an empty read). -/
structure HttpResponse where
  contentLength : Option String
  chunks : List (List Nat)
deriving DecidableEq, Repr

/-- Behaviour of the HTTP transport: urlopen outcome and the response. -/
structure HttpEnv where
  openExc : Option ExcKind
  response : HttpResponse
deriving DecidableEq, Repr

/-- The whole external world for one fetch. -/
structure Env where
  ftp : FtpEnv
  http : HttpEnv
deriving DecidableEq, Repr

/-- ProgressBar.__init__(initial_value, max_value, ...): it runs
float(max_value); when the caller passes max_value = None (unknown total
size) that call raises TypeError.  Otherwise construction succeeds. -/
def progressBarInit (initialValue : Nat) (maxValue : Option Int) : Except ExcKind Unit :=
  match maxValue with
  | none => Except.error ExcKind.typeError
  | some _ => Except.ok ()

/-- The read/write loop of _chunk_read_: returns the bytes written to the
local file, the final bytes_so_far counter, and the trace of values passed
to progress.update.  bytes_so_far is incremented before the empty-read
test, the chunk is written and only then reported, exactly as in the
source. -/
def chunkLoop : List (List Nat) → Nat → Bool → List Nat × Nat × List Nat
  | [], bytesSoFar, _ => ([], bytesSoFar, [])
  | chunk :: rest, bytesSoFar, reportHook =>
    let bytes1 := bytesSoFar + chunk.length
    if chunk.isEmpty then ([], bytes1, [])
    else
      let out := chunkLoop rest bytes1 reportHook
      (chunk ++ out.1, out.2.1, (if reportHook then [bytes1] else []) ++ out.2.2)

/-- Observable outcome of _chunk_read_: bytes written to the local file,
final bytes_so_far, progress.update trace, number of ProgressBar
constructions, and the Python return value (the source ends in a bare
`return`, so the function returns None, modelled as Option.none). -/
structure ChunkOut where
  written : List Nat
  bytesSoFar : Nat
  progCalls : List Nat
  bars : Nat
  retval : Option Nat
deriving DecidableEq, Repr

/-- _chunk_read_(response, local_file, chunk_size, report_hook,
initial_size, total_size, verbose).  total_size defaults to None, in which
case it is taken from the Content-Length header: an absent header makes
`.strip()` run on None and raise AttributeError.  A header that does not
parse as an int is caught and leaves the total unknown; constructing the
ProgressBar with an unknown total then raises TypeError (float(None)).
verbose only controls warning prints and is not modelled. -/
def _chunk_read_ (resp : HttpResponse) (chunkSize : Nat) (reportHook : Bool)
    (initialSize : Nat) (totalSizeArg : Option String) : Except ExcKind ChunkOut :=
  let tsStr : Except ExcKind String :=
    match totalSizeArg with
    | some s => Except.ok s
    | none =>
      match resp.contentLength with
      | none => Except.error ExcKind.attributeError
      | some s => Except.ok (pyStrip s)
  match tsStr with
  | Except.error e => Except.error e
  | Except.ok ts =>
    let totalSize : Option Int :=
      match pyInt ts with
      | some n => some (n + (initialSize : Int))
      | none => none
    if reportHook then
      match progressBarInit initialSize totalSize with
      | Except.error e => Except.error e
      | Except.ok _ =>
        let out := chunkLoop resp.chunks initialSize true
        Except.ok ⟨out.1, out.2.1, out.2.2, 1, none⟩
    else
      let out := chunkLoop resp.chunks initialSize false
      Except.ok ⟨out.1, out.2.1, out.2.2, 0, none⟩

deriving instance DecidableEq for Except

/-- Observable outcome of _fetch_file: the returned path or the raised
exception, the filesystem afterwards, the directories afterwards, the
network actions issued, the progress.update trace, and the number of
ProgressBar constructions. -/
structure FetchOut where
  result : Except ExcKind String
  files : FileSys
  dirs : List String
  net : List NetEv
  prog : List Nat
  bars : Nat
deriving DecidableEq, Repr

/-- Prefix already-issued events onto a nested outcome's traces. -/
def prependTrace (evs : List NetEv) (out : FetchOut) : FetchOut :=
  ⟨out.result, out.files, out.dirs, evs ++ out.net, out.prog, out.bars⟩

/-- The tail of _fetch_file after a completed transfer: close the temp
file (a no-op here), shutil.move the temp file onto the final path, then,
if an md5sum was supplied, compare _md5_sum_file(full_name) with it and
raise ValueError on mismatch.  Note the verification runs on the final
path, after the move. -/
def finalizeTail (md5 : List Nat → String) (md5sum : Option String)
    (files : FileSys) (dirs : List String) (net : List NetEv) (prog : List Nat)
    (bars : Nat) (tempFullName fullName : String) : FetchOut :=
  match fsGet files tempFullName with
  | none => ⟨Except.error ExcKind.ioError, files, dirs, net, prog, bars⟩
  | some content =>
    let files1 := fsSet (fsRemove files tempFullName) fullName content
    match md5sum with
    | some expected =>
      if md5 content = expected then
        ⟨Except.ok fullName, files1, dirs, net, prog, bars⟩
      else
        ⟨Except.error ExcKind.valueError, files1, dirs, net, prog, bars⟩
    | none => ⟨Except.ok fullName, files1, dirs, net, prog, bars⟩

/-- The non-resumed branch of _fetch_file: urlopen the url, open the temp
file in truncating write mode, drive _chunk_read_ with report_hook=True,
then run the finalize tail.  Any exception propagates (the enclosing
except clauses for HTTPError and URLError print and re-raise). -/
def fullBranch (env : Env) (md5 : List Nat → String) (md5sum : Option String)
    (url : URL) (files : FileSys) (dirs : List String)
    (tempFullName fullName : String) (initialSize : Nat) : FetchOut :=
  let ev := NetEv.httpOpen url.scheme url.hostname url.path
  match env.http.openExc with
  | some e => ⟨Except.error e, files, dirs, [ev], [], 0⟩
  | none =>
    let files1 := fsSet files tempFullName []
    match _chunk_read_ env.http.response 8192 true initialSize none with
    | Except.error e => ⟨Except.error e, files1, dirs, [ev], [], 0⟩
    | Except.ok out =>
      let files2 := fsSet files1 tempFullName out.written
      finalizeTail md5 md5sum files2 dirs [ev] out.progCalls out.bars
        tempFullName fullName

/-- The resumed branch of _fetch_file after data.connect was issued (the
caller records the connect event): login, optionally cwd to the decoded
directory component, then inside a try limited to urllib2.HTTPError send
TYPE I and REST, open the temp file in append mode, and RETR the remote
file streaming into it.  Only an HTTPError triggers the one-shot fallback
(fallbackFn, a fresh _fetch_file with resume=False, overwrite=False and no
md5sum); every other exception propagates.  No ProgressBar is constructed
and no progress callback runs in this branch. -/
def resumeCore (env : Env) (md5 : List Nat → String) (md5sum : Option String)
    (url : URL) (files : FileSys) (dirs : List String)
    (tempFullName fullName fileName : String) (tempContent : List Nat)
    (fallbackFn : Unit → FetchOut) : FetchOut :=
  let bPath := basename url.path
  let gPath := stringReplace url.path bPath ""
  let unquotedGPath := pyUnquote gPath
  match env.ftp.connectExc with
  | some e => ⟨Except.error e, files, dirs, [], [], 0⟩
  | none =>
  let evs1 := [NetEv.ftpLogin]
  match env.ftp.loginExc with
  | some e => ⟨Except.error e, files, dirs, evs1, [], 0⟩
  | none =>
  let evs2 := if 1 < gPath.length then evs1 ++ [NetEv.ftpCwd unquotedGPath] else evs1
  let cwdRes := if 1 < gPath.length then env.ftp.cwdExc else none
  match cwdRes with
  | some e => ⟨Except.error e, files, dirs, evs2, [], 0⟩
  | none =>
  let localFileSize := tempContent.length
  let evs3 := evs2 ++ [NetEv.ftpCmd "TYPE I"]
  match env.ftp.typeExc with
  | some e =>
    if e = ExcKind.httpError then prependTrace evs3 (fallbackFn ())
    else ⟨Except.error e, files, dirs, evs3, [], 0⟩
  | none =>
  let evs4 := evs3 ++ [NetEv.ftpCmd ("REST " ++ natToStr localFileSize)]
  match env.ftp.restExc with
  | some e =>
    if e = ExcKind.httpError then prependTrace evs4 (fallbackFn ())
    else ⟨Except.error e, files, dirs, evs4, [], 0⟩
  | none =>
  let evs5 := evs4 ++ [NetEv.ftpRetr ("RETR " ++ fileName)]
  match env.ftp.retrExc with
  | some e =>
    if e = ExcKind.httpError then prependTrace evs5 (fallbackFn ())
    else ⟨Except.error e, files, dirs, evs5, [], 0⟩
  | none =>
  let files1 := fsSet files tempFullName (tempContent ++ env.ftp.retrData)
  finalizeTail md5 md5sum files1 dirs evs5 [] 0 tempFullName fullName

/-- _fetch_file, with fuel bounding the recursion depth of the one-shot
resume fallback (`return _fetch_file(url, data_dir, resume=False,
overwrite=False)`).  The fallback call has resume=False and therefore
never recurses again, so fuel 1 is exact; the fuel-0 arm is unreachable
from _fetch_file.  The md5 argument is the external MD5 primitive
(_md5_sum_file applied to a file's bytes). -/
def _fetch_file_aux (fuel : Nat) (req : Request) (env : Env)
    (md5 : List Nat → String) (files0 : FileSys) (dirs0 : List String) : FetchOut :=
  let dirs := if req.dataDir ∈ dirs0 then dirs0 else req.dataDir :: dirs0
  let fileName := basename req.url.path
  let tempFileName := fileName ++ ".part"
  let fullName := pathJoin req.dataDir fileName
  let tempFullName := pathJoin req.dataDir tempFileName
  if (fsGet files0 fullName).isSome ∧ req.overwrite = false then
    ⟨Except.ok fullName, files0, dirs, [], [], 0⟩
  else
    let files1 :=
      if (fsGet files0 fullName).isSome ∧ req.overwrite = true then
        fsRemove files0 fullName
      else files0
    let files2 :=
      if (fsGet files1 tempFullName).isSome ∧ req.overwrite = true then
        fsRemove files1 tempFullName
      else files1
    if req.resume = true then
      match fsGet files2 tempFullName with
      | some tempContent =>
        match fuel with
        | 0 => ⟨Except.error ExcKind.ioError, files2, dirs, [], [], 0⟩
        | fuel' + 1 =>
          let fallbackReq : Request :=
            { url := req.url, dataDir := req.dataDir, resume := false,
              overwrite := false, md5sum := none, verbose := 0 }
          prependTrace [NetEv.ftpConnect req.url.hostname req.url.port]
            (resumeCore env md5 req.md5sum req.url files2 dirs tempFullName
              fullName fileName tempContent
              (fun _ => _fetch_file_aux fuel' fallbackReq env md5 files2 dirs))
      | none => fullBranch env md5 req.md5sum req.url files2 dirs tempFullName fullName 0
    else fullBranch env md5 req.md5sum req.url files2 dirs tempFullName fullName 0

/-- _fetch_file(url, data_dir, resume, overwrite, md5sum, verbose). -/
def _fetch_file (req : Request) (env : Env) (md5 : List Nat → String)
    (files : FileSys) (dirs : List String) : FetchOut :=
  _fetch_file_aux 1 req env md5 files dirs

/-- Fuel-driven floor logarithm: largest e with b ^ e ≤ n (0 when n < b or
b < 2).  Fuel n suffices because n is divided by b ≥ 2 at every step. -/
def natLogFuel : Nat → Nat → Nat → Nat
  | 0, _, _ => 0
  | fuel + 1, b, n => if 2 ≤ b ∧ b ≤ n then natLogFuel fuel b (n / b) + 1 else 0

/-- Exact floor logarithm, idealizing Python int(math.log(n, b)). -/
def natFloorLog (b n : Nat) : Nat := natLogFuel n b n

/-- Floor of a rational to a natural number (0 for negative input),
written out on the numerator and denominator so it evaluates by
reduction. -/
def ratFloorNat (q : ℚ) : Nat := q.num.toNat / q.den

/-- Round the fraction n / m (for m > 0) to the nearest integer, ties to
even, like Python float formatting (idealized to exact fractions). -/
def roundHalfEvenFrac (n m : ℤ) : ℤ :=
  let fl := n.fdiv m
  let rem := n - fl * m
  if 2 * rem < m then fl
  else if m < 2 * rem then fl + 1
  else if fl % 2 = 0 then fl else fl + 1

/-- Python '%.df' % (n / m) for a nonnegative fraction n / m with m > 0:
round to d decimal places and render with exactly d digits after the
point (no point when d = 0). -/
def formatFixedFrac (n : ℤ) (m : ℕ) (d : Nat) : String :=
  let r := (roundHalfEvenFrac (n * 10 ^ d) (m : ℤ)).toNat
  if d = 0 then natToStr r
  else natToStr (r / 10 ^ d) ++ "." ++ natToStrPad d (r % 10 ^ d)

/-- The unit_list of sizeof_fmt: unit names zipped with decimal counts. -/
def unitList : List (String × Nat) :=
  [("bytes", 0), ("kB", 0), ("MB", 1), ("GB", 2), ("TB", 2), ("PB", 2)]

/-- sizeof_fmt(num): for num > 1 pick exponent
min(int(log(num, 1024)), len(unit_list) - 1), divide by 1024 ^ exponent
and format with the unit's decimal count; 0 and 1 have fixed renderings;
every other input falls off the end of the function and returns None. -/
def sizeof_fmt (num : ℚ) : Option String :=
  if 1 < num then
    let exponent := min (natFloorLog 1024 (ratFloorNat num)) (unitList.length - 1)
    -- quotient = num / 1024 ^ exponent, kept as the exact fraction
    -- num.num / (num.den * 1024 ^ exponent) so it evaluates by reduction
    let u := unitList.getD exponent ("", 0)
    some (formatFixedFrac num.num (num.den * 1024 ^ exponent) u.2 ++ " " ++ u.1)
  else if num = 0 then some "0 bytes"
  else if num = 1 then some "1 byte"
  else none

/-- Spec-side description (for the ChunkedTransfer drain contract): the
chunks actually consumed, i.e. the prefix up to the first zero-length
read. -/
def specDrainChunks : List (List Nat) → List (List Nat)
  | [] => []
  | c :: rest => if c.isEmpty then [] else c :: specDrainChunks rest

/-- Spec-side description: the accumulated byte counts reported after each
non-empty chunk, starting from the initial offset. -/
def specDrainProgress : Nat → List (List Nat) → List Nat
  | _, [] => []
  | init, c :: rest =>
    if c.isEmpty then []
    else (init + c.length) :: specDrainProgress (init + c.length) rest

/-- Concrete MD5 oracle for the closed scenarios: the digest of a byte
string is its length, rendered in decimal (the fetcher treats the digest
function as an external primitive, so any injective-enough stand-in
serves for concrete runs). -/
def md5Len : List Nat → String := fun c => natToStr c.length

/-- An FTP url ftp://h/pub/f.dat. -/
def urlFtp : URL := ⟨Scheme.ftp, "h", none, "/pub/f.dat"⟩

/-- An HTTP url http://example.com/pub/f.dat. -/
def urlHttp : URL := ⟨Scheme.http, "example.com", none, "/pub/f.dat"⟩

/-- A fully successful FTP server delivering [7, 8] on RETR. -/
def ftpAllOk : FtpEnv := ⟨none, none, none, none, none, none, [7, 8]⟩

/-- Resumable FTP request without checksum. -/
def reqC2 : Request := ⟨urlFtp, "/data", true, false, none, 0⟩

/-- World where the FTP server rejects the REST command with a 5xx reply,
i.e. ftplib raises error_perm. -/
def envC2 : Env :=
  ⟨⟨none, none, none, none, some ExcKind.ftpErrorPerm, none, []⟩,
   ⟨none, ⟨some "9", [[5], []]⟩⟩⟩

/-- A partial temp file of three bytes already on disk. -/
def filesC2 : FileSys := [("/data/f.dat.part", [0, 1, 2])]

/-- Resumable FTP request that supplies a checksum. -/
def reqC4 : Request := ⟨urlFtp, "/data", true, false, some "GOOD", 0⟩

/-- World where the REST step raises HTTPError (the one exception class
the fallback catches) and the subsequent full download delivers two bytes
with Content-Length 2. -/
def envC4 : Env :=
  ⟨⟨none, none, none, none, some ExcKind.httpError, none, []⟩,
   ⟨none, ⟨some "2", [[9, 9], []]⟩⟩⟩

/-- Plain non-resumable HTTP request supplying a checksum. -/
def reqC1 : Request := ⟨urlHttp, "/data", false, false, some "GOOD", 0⟩

/-- World with a healthy HTTP transport delivering two bytes. -/
def envOkHttp : Env := ⟨ftpAllOk, ⟨none, ⟨some "2", [[9, 9], []]⟩⟩⟩

/-- Resumable request with an HTTP (non-FTP) url. -/
def reqC3 : Request := ⟨urlHttp, "/data", true, false, none, 0⟩

/-- World where the FTP connect attempt fails with socket.error, as it
would when FTP-connecting to an HTTP server. -/
def envC3 : Env :=
  ⟨⟨some ExcKind.socketError, none, none, none, none, none, []⟩,
   ⟨none, ⟨some "9", [[5], []]⟩⟩⟩

/-- Non-resumable HTTP request with a checksum that matches md5Len of the
delivered bytes [9, 9] (two bytes, digest "2"). -/
def reqC4w : Request := ⟨urlHttp, "/data", false, false, some "2", 0⟩

/-- Plain HTTP request without checksum. -/
def reqC6 : Request := ⟨urlHttp, "/data", false, false, none, 0⟩

/-- World whose HTTP response carries no Content-Length header. -/
def envNoCL : Env := ⟨ftpAllOk, ⟨none, ⟨none, [[1], []]⟩⟩⟩

/-- World whose HTTP response carries an unparsable Content-Length. -/
def envBadCL : Env := ⟨ftpAllOk, ⟨none, ⟨some "abc", [[1], []]⟩⟩⟩

/-- World where the whole FTP resume protocol succeeds, delivering
[7, 8] as the remainder of the file. -/
def envC10 : Env := ⟨ftpAllOk, ⟨none, ⟨some "9", [[5], []]⟩⟩⟩

/-- Looking up a path just written returns what was written. -/
theorem fsGet_fsSet_self (fs : FileSys) (p : String) (v : List Nat) :
    fsGet (fsSet fs p v) p = some v := by
  induction fs with
  | nil => simp [fsSet, fsGet]
  | cons kv rest ih =>
    rcases kv with ⟨k, w⟩
    by_cases h : k = p
    · simp [fsSet, h, fsGet]
    · simp [fsSet, h, fsGet, ih]

/-- The fuel-driven logarithm agrees with Mathlib's Nat.log once the fuel
covers the argument. -/
theorem natLogFuel_eq_log (b : ℕ) :
    ∀ fuel n, n ≤ fuel → natLogFuel fuel b n = Nat.log b n := by
  intro fuel
  induction fuel with
  | zero =>
    intro n hn
    have hn0 : n = 0 := Nat.le_zero.mp hn
    subst hn0
    simp [natLogFuel, Nat.log_zero_right]
  | succ fuel ih =>
    intro n hn
    by_cases h : 2 ≤ b ∧ b ≤ n
    · rw [natLogFuel, if_pos h]
      have hb1 : 1 < b := h.1
      have hn0 : 0 < n := lt_of_lt_of_le (by omega) h.2
      have hlt : n / b < n := Nat.div_lt_self hn0 hb1
      rw [ih (n / b) (by omega), Nat.log_of_one_lt_of_le hb1 h.2]
    · rw [natLogFuel, if_neg h]
      rcases Nat.lt_or_ge b 2 with hb | hb
      · exact (Nat.log_of_left_le_one (by omega) n).symm
      · have hnb : n < b := by omega
        exact (Nat.log_of_lt hnb).symm

/-- natFloorLog is Nat.log. -/
theorem natFloorLog_eq_log (b n : ℕ) : natFloorLog b n = Nat.log b n :=
  natLogFuel_eq_log b n n le_rfl

/-- The transfer loop, characterized against the spec-side description:
it writes the concatenation of the chunks up to the first zero-length
read, ends with the initial offset plus the bytes written, and (when
reporting) emits exactly the running totals after each non-empty chunk. -/
theorem chunkLoop_eq (chunks : List (List Nat)) :
    ∀ init : Nat, ∀ rh : Bool,
    chunkLoop chunks init rh =
      ((specDrainChunks chunks).flatten,
        init + (specDrainChunks chunks).flatten.length,
        if rh then specDrainProgress init chunks else []) := by
  induction chunks with
  | nil => intro init rh; simp [chunkLoop, specDrainChunks, specDrainProgress]
  | cons c rest ih =>
    intro init rh
    by_cases hc : c.isEmpty
    · have hcn : c = [] := List.isEmpty_iff.mp hc
      subst hcn
      simp [chunkLoop, specDrainChunks, specDrainProgress]
    · simp only [chunkLoop, specDrainChunks, specDrainProgress, hc,
        Bool.false_eq_true, if_false, ih (init + c.length) rh]
      cases rh <;> simp [List.flatten] <;> omega

/-- C1 (counterexample): with a supplied checksum that does not match the
transferred bytes, the fetch raises, yet the mismatched file is visible
at the final path afterwards — the rename happened before verification,
contradicting the claim that a file whose digest does not match is never
visible at the final path. -/
theorem c1_checksum_after_rename_counterexample :
    reqC1.md5sum = some "GOOD" ∧ md5Len [9, 9] ≠ "GOOD" ∧
    (_fetch_file reqC1 envOkHttp md5Len [] ["/data"]).result =
      Except.error ExcKind.valueError ∧
    fsGet (_fetch_file reqC1 envOkHttp md5Len [] ["/data"]).files
      "/data/f.dat" = some [9, 9] := by decide

/-- C1 (amended): for every non-resume fetch with a supplied checksum
whose transfer completes but whose digest mismatches, the fetch raises
ValueError and the mismatched bytes are nevertheless installed at the
final path: the checksum is verified against the final path after the
rename, not against the temp file before it. -/
theorem c1_amended_mismatch_visible_after_rename (req : Request) (env : Env)
    (md5 : List Nat → String) (files : FileSys) (dirs : List String)
    (m : String) (out : ChunkOut)
    (hres : req.resume = false) (hm : req.md5sum = some m)
    (hfull : fsGet files (pathJoin req.dataDir (basename req.url.path)) = none)
    (hopen : env.http.openExc = none)
    (hcr : _chunk_read_ env.http.response 8192 true 0 none = Except.ok out)
    (hdiff : md5 out.written ≠ m) :
    (_fetch_file req env md5 files dirs).result = Except.error ExcKind.valueError ∧
    fsGet (_fetch_file req env md5 files dirs).files
      (pathJoin req.dataDir (basename req.url.path)) = some out.written := by
  unfold _fetch_file _fetch_file_aux fullBranch
  simp [hfull, hres, hopen, hcr, hm, hdiff, finalizeTail, fsGet_fsSet_self]

/-- C1 (witness): the amended statement evaluated on a concrete mismatch
scenario. -/
theorem c1_amended_witness :
    (_fetch_file reqC1 envOkHttp md5Len [] ["/data"]).result =
      Except.error ExcKind.valueError ∧
    fsGet (_fetch_file reqC1 envOkHttp md5Len [] ["/data"]).files
      (pathJoin "/data" (basename "/pub/f.dat")) = some [9, 9] :=
  c1_amended_mismatch_visible_after_rename reqC1 envOkHttp md5Len [] ["/data"]
    "GOOD" ⟨[9, 9], 2, [2], 1, none⟩ rfl rfl rfl rfl (by decide) (by decide)

/-- C2 (code bug, evaluated): when the FTP server rejects the restart
command with a 5xx reply — which ftplib surfaces as error_perm, not as
urllib2.HTTPError — the fetch propagates the FTP error: the network trace
stops at the REST command, no full non-resumable download is attempted
(no urlopen event), and the temp file is left as it was.  The claimed
one-shot fallback never runs because the except clause names
urllib2.HTTPError, an exception the FTP protocol steps cannot raise. -/
theorem c2_rest_rejection_propagates :
    (_fetch_file reqC2 envC2 md5Len filesC2 ["/data"]).result =
      Except.error ExcKind.ftpErrorPerm ∧
    (_fetch_file reqC2 envC2 md5Len filesC2 ["/data"]).net =
      [NetEv.ftpConnect "h" none, NetEv.ftpLogin, NetEv.ftpCwd "/pub/",
       NetEv.ftpCmd "TYPE I", NetEv.ftpCmd "REST 3"] ∧
    (_fetch_file reqC2 envC2 md5Len filesC2 ["/data"]).files = filesC2 := by
  decide

/-- C3 (counterexample): with resume=true, an existing temp file and an
http url, the fetch still opens an FTP control connection (first and only
network action) and, when that connect fails as it must against an HTTP
server, propagates the error — it neither skips the FTP resume protocol
nor falls back to a full download, contradicting the claim. -/
theorem c3_http_resume_counterexample :
    reqC3.url.scheme = Scheme.http ∧ reqC3.resume = true ∧
    (_fetch_file reqC3 envC3 md5Len filesC2 ["/data"]).net =
      [NetEv.ftpConnect "example.com" none] ∧
    (_fetch_file reqC3 envC3 md5Len filesC2 ["/data"]).result =
      Except.error ExcKind.socketError := by decide

/-- C3 (amended): for every request with resume=true and an existing temp
file, whatever the url scheme, the first network action of the fetch is
an FTP connect to the url's host — the code has no scheme check and
always attempts the FTP resume protocol. -/
theorem c3_amended_ftp_resume_any_scheme (req : Request) (env : Env)
    (md5 : List Nat → String) (files : FileSys) (dirs : List String)
    (tc : List Nat)
    (hres : req.resume = true) (hov : req.overwrite = false)
    (hfull : fsGet files (pathJoin req.dataDir (basename req.url.path)) = none)
    (htemp : fsGet files
      (pathJoin req.dataDir (basename req.url.path ++ ".part")) = some tc) :
    ∃ rest, (_fetch_file req env md5 files dirs).net =
      NetEv.ftpConnect req.url.hostname req.url.port :: rest := by
  unfold _fetch_file _fetch_file_aux
  simp [hfull, hov, hres, htemp, prependTrace]

/-- C3 (witness): the amended statement on the concrete http scenario. -/
theorem c3_amended_witness :
    ∃ rest, (_fetch_file reqC3 envC3 md5Len filesC2 ["/data"]).net =
      NetEv.ftpConnect "example.com" none :: rest :=
  c3_amended_ftp_resume_any_scheme reqC3 envC3 md5Len filesC2 ["/data"]
    [0, 1, 2] rfl rfl (by decide) (by decide)

/-- C4 (counterexample): a checksum is supplied and does not match the
transferred bytes, yet the fetch succeeds and returns the final path
holding the mismatched bytes: the run went through the one-shot
resume-to-full fallback, whose recursive call drops the md5sum argument,
so the checksum gate is skipped — contradicting the claim that the gate
holds on every path to success including the fallback. -/
theorem c4_fallback_skips_checksum_counterexample :
    reqC4.md5sum = some "GOOD" ∧ md5Len [9, 9] ≠ "GOOD" ∧
    (_fetch_file reqC4 envC4 md5Len filesC2 ["/data"]).result =
      Except.ok "/data/f.dat" ∧
    fsGet (_fetch_file reqC4 envC4 md5Len filesC2 ["/data"]).files
      "/data/f.dat" = some [9, 9] := by decide

/-- C4 (amended): on non-resume fetches (where the fallback cannot fire)
the checksum gate holds: if a checksum was supplied and the fetch returns
a path, the file now at that path has a matching digest; a digest
mismatch makes the fetch raise instead.  On the fallback path the gate is
skipped entirely because the recursive call does not forward md5sum. -/
theorem c4_amended_checksum_gate_nonresume (req : Request) (env : Env)
    (md5 : List Nat → String) (files : FileSys) (dirs : List String)
    (m : String) (p : String)
    (hres : req.resume = false) (hm : req.md5sum = some m)
    (hfull : fsGet files (pathJoin req.dataDir (basename req.url.path)) = none)
    (hok : (_fetch_file req env md5 files dirs).result = Except.ok p) :
    ∃ c, fsGet (_fetch_file req env md5 files dirs).files p = some c ∧
      md5 c = m := by
  unfold _fetch_file _fetch_file_aux fullBranch at hok ⊢
  cases ho : env.http.openExc with
  | some e => simp [hfull, hres, ho] at hok
  | none =>
    cases hcr : _chunk_read_ env.http.response 8192 true 0 none with
    | error e => simp [hfull, hres, ho, hcr] at hok
    | ok out =>
      by_cases hmd : md5 out.written = m
      · refine ⟨out.written, ?_, hmd⟩
        simp [hfull, hres, ho, hcr, hm, hmd, finalizeTail, fsGet_fsSet_self]
          at hok ⊢
        rw [← hok]
        simp [fsGet_fsSet_self]
      · simp [hfull, hres, ho, hcr, hm, hmd, finalizeTail, fsGet_fsSet_self]
          at hok

/-- C4 (witness): the amended gate on a concrete matching run — the fetch
succeeds and the installed bytes digest to the supplied checksum. -/
theorem c4_amended_checksum_gate_witness :
    ∃ c, fsGet (_fetch_file reqC4w envOkHttp md5Len [] ["/data"]).files
      "/data/f.dat" = some c ∧ md5Len c = "2" :=
  c4_amended_checksum_gate_nonresume reqC4w envOkHttp md5Len [] ["/data"]
    "2" "/data/f.dat" rfl rfl (by decide) (by decide)

/-- C5 (counterexample): _chunk_read_ drains a three-byte stream, tallies
bytes_so_far = 3 and reports progress, but its Python return value is
None, not the total number of bytes transferred — the claim's final
clause fails. -/
theorem c5_drain_returns_none_counterexample :
    _chunk_read_ ⟨some "3", [[1, 2, 3]]⟩ 8192 true 0 none =
      Except.ok ⟨[1, 2, 3], 3, [3], 1, none⟩ ∧
    (⟨[1, 2, 3], 3, [3], 1, none⟩ : ChunkOut).retval ≠ some 3 := by decide

/-- C5 (amended): for every response whose Content-Length parses, the
chunked transfer writes to the sink exactly the concatenation of the
chunks read up to the first zero-length read, accumulates the byte count
from the initial offset, invokes the progress callback after every
non-empty chunk with the running total, and returns None (not the byte
count). -/
theorem c5_amended_drain_behaviour (resp : HttpResponse) (s : String)
    (k : Int) (init : Nat)
    (h1 : resp.contentLength = some s)
    (h2 : pyInt (pyStrip s) = some k) :
    _chunk_read_ resp 8192 true init none =
      Except.ok ⟨(specDrainChunks resp.chunks).flatten,
        init + (specDrainChunks resp.chunks).flatten.length,
        specDrainProgress init resp.chunks, 1, none⟩ := by
  unfold _chunk_read_
  simp [h1, h2, progressBarInit, chunkLoop_eq]

/-- C5 (witness): the amended drain contract evaluated on a concrete
stream. -/
theorem c5_amended_drain_witness :
    _chunk_read_ ⟨some "3", [[1, 2, 3], []]⟩ 8192 true 0 none =
      Except.ok ⟨[1, 2, 3], 3, [3], 1, none⟩ :=
  c5_amended_drain_behaviour ⟨some "3", [[1, 2, 3], []]⟩ "3" 3 0 rfl rfl

/-- C6 (code bug, evaluated): a response with no Content-Length header
makes _chunk_read_ raise AttributeError (None.strip()), and a response
whose Content-Length does not parse makes it raise TypeError
(float(None) in ProgressBar.__init__); in both cases the whole fetch
fails rather than proceeding with an unknown total size. -/
theorem c6_content_length_failure :
    _chunk_read_ ⟨none, [[1]]⟩ 8192 true 0 none =
      Except.error ExcKind.attributeError ∧
    _chunk_read_ ⟨some "abc", [[1]]⟩ 8192 true 0 none =
      Except.error ExcKind.typeError ∧
    (_fetch_file reqC6 envNoCL md5Len [] ["/data"]).result =
      Except.error ExcKind.attributeError ∧
    (_fetch_file reqC6 envBadCL md5Len [] ["/data"]).result =
      Except.error ExcKind.typeError := by decide

/-- C7 (confirmed): when the final path already exists and overwrite is
false, the fetch returns that path at once: the filesystem is untouched,
no network action occurs, no progress is emitted and no progress bar is
built — only the destination directory is created if missing. -/
theorem c7_short_circuit_existing (req : Request) (env : Env)
    (md5 : List Nat → String) (files : FileSys) (dirs : List String)
    (c : List Nat)
    (hex : fsGet files (pathJoin req.dataDir (basename req.url.path)) = some c)
    (hov : req.overwrite = false) :
    _fetch_file req env md5 files dirs =
      ⟨Except.ok (pathJoin req.dataDir (basename req.url.path)), files,
        if req.dataDir ∈ dirs then dirs else req.dataDir :: dirs, [], [], 0⟩ := by
  unfold _fetch_file _fetch_file_aux
  simp [hex, hov]

/-- C7 (witness): the short circuit evaluated on a concrete state where
the final file is already present. -/
theorem c7_short_circuit_witness :
    _fetch_file reqC2 envC2 md5Len [("/data/f.dat", [1])] ["/data"] =
      ⟨Except.ok (pathJoin "/data" (basename "/pub/f.dat")),
        [("/data/f.dat", [1])],
        if "/data" ∈ ["/data"] then ["/data"] else "/data" :: ["/data"],
        [], [], 0⟩ :=
  c7_short_circuit_existing reqC2 envC2 md5Len [("/data/f.dat", [1])]
    ["/data"] [1] (by decide) rfl

/-- C8 (counterexample): sizeof_fmt renders 1024 as "1 kB" (0 decimal
places for the kB unit) rather than the claimed "1.00 kB", and 1024 ^ 2
as "1.0 MB" (1 decimal place for MB) rather than "1.00 MB" — the unit
table pairs decimals 0, 0, 1, 2, 2, 2 with bytes, kB, MB, GB, TB, PB. -/
theorem c8_decimals_counterexample :
    sizeof_fmt 1024 ≠ some "1.00 kB" ∧ sizeof_fmt 1024 = some "1 kB" ∧
    sizeof_fmt 1048576 ≠ some "1.00 MB" ∧
    sizeof_fmt 1048576 = some "1.0 MB" := by decide

/-- C8 (amended): sizeof_fmt renders in binary 1024-based units choosing
the largest unit whose quotient is at least 1 (capped at PB), with 0
decimal places for bytes and kB, 1 for MB and 2 for GB, TB and PB;
0 renders as "0 bytes", 1 as "1 byte", 1024 as "1 kB", 1024 ^ 2 as
"1.0 MB" and 1024 ^ 3 as "1.00 GB".  For every byte count n > 1 the
exponent sizeof_fmt uses (natFloorLog capped at 5) satisfies
1024 ^ exponent ≤ n, and below the cap n < 1024 ^ (exponent + 1). -/
theorem c8_amended_sizeof_fmt (n : ℕ) (h : 1 < n) :
    sizeof_fmt 0 = some "0 bytes" ∧ sizeof_fmt 1 = some "1 byte" ∧
    sizeof_fmt 1024 = some "1 kB" ∧ sizeof_fmt 1048576 = some "1.0 MB" ∧
    sizeof_fmt 1073741824 = some "1.00 GB" ∧
    ratFloorNat ((n : ℚ)) = n ∧
    1024 ^ min (natFloorLog 1024 n) 5 ≤ n ∧
    (min (natFloorLog 1024 n) 5 < 5 →
      n < 1024 ^ (min (natFloorLog 1024 n) 5 + 1)) := by
  refine ⟨by decide, by decide, by decide, by decide, by decide, ?_, ?_, ?_⟩
  · simp [ratFloorNat]
  · rw [natFloorLog_eq_log]
    rcases Nat.le_total (Nat.log 1024 n) 5 with h5 | h5
    · rw [Nat.min_eq_left h5]
      exact Nat.pow_log_le_self 1024 (by omega)
    · rw [Nat.min_eq_right h5]
      calc (1024 : ℕ) ^ 5 ≤ 1024 ^ Nat.log 1024 n :=
            Nat.pow_le_pow_right (by norm_num) h5
        _ ≤ n := Nat.pow_log_le_self 1024 (by omega)
  · rw [natFloorLog_eq_log]
    intro hlt
    have h5 : Nat.log 1024 n < 5 := by
      rcases Nat.le_total (Nat.log 1024 n) 5 with h5 | h5
      · rw [Nat.min_eq_left h5] at hlt; exact hlt
      · rw [Nat.min_eq_right h5] at hlt; omega
    rw [Nat.min_eq_left (by omega)]
    exact Nat.lt_pow_succ_log_self (by norm_num) n

/-- C8 (witness): the amended statement at the byte count 2048. -/
theorem c8_amended_sizeof_fmt_witness :
    1 < 2048 ∧
    (sizeof_fmt 0 = some "0 bytes" ∧ sizeof_fmt 1 = some "1 byte" ∧
    sizeof_fmt 1024 = some "1 kB" ∧ sizeof_fmt 1048576 = some "1.0 MB" ∧
    sizeof_fmt 1073741824 = some "1.00 GB" ∧
    ratFloorNat ((2048 : ℕ) : ℚ) = 2048 ∧
    1024 ^ min (natFloorLog 1024 2048) 5 ≤ 2048 ∧
    (min (natFloorLog 1024 2048) 5 < 5 →
      2048 < 1024 ^ (min (natFloorLog 1024 2048) 5 + 1))) :=
  ⟨by norm_num, c8_amended_sizeof_fmt 2048 (by norm_num)⟩

/-- C9 (confirmed): sizeof_fmt is partial at its interface: every input
strictly between 0 and 1 and every negative input falls through all
branches and yields no string (Python returns None); a string is produced
exactly for inputs equal to 0, equal to 1, or greater than 1. -/
theorem c9_sizeof_fmt_domain (q : ℚ) :
    (0 < q → q < 1 → sizeof_fmt q = none) ∧
    (q < 0 → sizeof_fmt q = none) ∧
    ((sizeof_fmt q).isSome ↔ (q = 0 ∨ q = 1 ∨ 1 < q)) := by
  refine ⟨?_, ?_, ?_⟩
  · intro h0 h1
    rw [sizeof_fmt, if_neg (by linarith), if_neg (by linarith),
      if_neg (by linarith)]
  · intro hneg
    rw [sizeof_fmt, if_neg (by linarith), if_neg (by linarith),
      if_neg (by linarith)]
  · rw [sizeof_fmt]
    split_ifs with h1 h2 h3 <;> simp_all

/-- C9 (witness): sizeof_fmt at one half and at a negative input. -/
theorem c9_sizeof_fmt_domain_witness :
    sizeof_fmt (1 / 2 : ℚ) = none ∧ sizeof_fmt (-3 : ℚ) = none :=
  ⟨(c9_sizeof_fmt_domain (1 / 2)).1 (by norm_num) (by norm_num),
   (c9_sizeof_fmt_domain (-3)).2.1 (by norm_num)⟩

/-- C10 (confirmed): a resumed FTP transfer that completes produces no
progress output at all — the progress trace is empty and no ProgressBar
is constructed — while the remote bytes are appended to the temp file and
installed at the final path (here with no checksum supplied). -/
theorem c10_resume_silent (req : Request) (env : Env)
    (md5 : List Nat → String) (files : FileSys) (dirs : List String)
    (tc : List Nat)
    (hres : req.resume = true) (hov : req.overwrite = false)
    (hmd5 : req.md5sum = none)
    (hfull : fsGet files (pathJoin req.dataDir (basename req.url.path)) = none)
    (htemp : fsGet files
      (pathJoin req.dataDir (basename req.url.path ++ ".part")) = some tc)
    (hc : env.ftp.connectExc = none) (hl : env.ftp.loginExc = none)
    (hw : env.ftp.cwdExc = none) (ht : env.ftp.typeExc = none)
    (hr : env.ftp.restExc = none) (hx : env.ftp.retrExc = none) :
    (_fetch_file req env md5 files dirs).prog = [] ∧
    (_fetch_file req env md5 files dirs).bars = 0 ∧
    (_fetch_file req env md5 files dirs).result =
      Except.ok (pathJoin req.dataDir (basename req.url.path)) ∧
    fsGet (_fetch_file req env md5 files dirs).files
      (pathJoin req.dataDir (basename req.url.path)) =
        some (tc ++ env.ftp.retrData) := by
  unfold _fetch_file _fetch_file_aux
  simp [hfull, hov, hres, htemp, hmd5, hc, hl, hw, ht, hr, hx, prependTrace,
    resumeCore, finalizeTail, fsGet_fsSet_self]

/-- C10 (witness): the silent resumed transfer on a concrete state. -/
theorem c10_resume_silent_witness :
    (_fetch_file reqC2 envC10 md5Len filesC2 ["/data"]).prog = [] ∧
    (_fetch_file reqC2 envC10 md5Len filesC2 ["/data"]).bars = 0 ∧
    (_fetch_file reqC2 envC10 md5Len filesC2 ["/data"]).result =
      Except.ok (pathJoin "/data" (basename "/pub/f.dat")) ∧
    fsGet (_fetch_file reqC2 envC10 md5Len filesC2 ["/data"]).files
      (pathJoin "/data" (basename "/pub/f.dat")) =
        some ([0, 1, 2] ++ [7, 8]) :=
  c10_resume_silent reqC2 envC10 md5Len filesC2 ["/data"] [0, 1, 2]
    rfl rfl rfl (by decide) (by decide) rfl rfl rfl rfl rfl rfl

end MneFetch
